import Mathlib

/-!
Shallow embedding of the ledger core of the pyqt-budget-manager repository
(`src/expense_report.py`, the category registry of `src/expense_operations.py`,
and the seed data of `src/fill_data.py`), together with proofs about it.

Python numeric amounts are modelled exactly over `ℚ` (ints as integers,
floats as their decimal literals); Python's `round(x, 2)` is modelled as exact
half-even rounding to two decimal places.  A raised Python exception is
modelled as an `Except.error` / `.exn` value carrying the exception message.
-/

namespace BudgetManager

/-- A Python value that can be passed as an `amount` argument: an `int`,
a `float`, or a non-numeric object (modelled by its string form). -/
inductive PyVal where
  | int (n : ℤ)
  | float (q : ℚ)
  | str (s : String)
deriving DecidableEq, Repr

/-- The numeric value of a `PyVal`; only meaningful for `int`/`float`
(every caller guards with `is_number` first, mirroring the source). -/
def PyVal.toRat : PyVal → ℚ
  | .int n => (n : ℚ)
  | .float q => q
  | .str _ => 0

/-- Python unary negation `amount *= -1`, which preserves the value's type. -/
def PyVal.neg : PyVal → PyVal
  | .int n => .int (-n)
  | .float q => .float (-q)
  | .str s => .str s

/-- A raised Python exception: `Exception(msg)` or a `TypeError` from an
unsupported comparison. -/
inductive PyErr where
  | exception (msg : String)
  | typeError
deriving DecidableEq, Repr

/-- One wallet entry: `{'amount': ..., 'description': ..., 'transfer': ...}`. -/
structure Tx where
  amount : PyVal
  description : String
  transfer : Bool
deriving DecidableEq, Repr

/-- The `Category` class state: `self._category` and `self._wallet`. -/
structure Category where
  category : String
  wallet : List Tx
deriving DecidableEq, Repr

/-- `is_number`: `type(value) == int or type(value) == float`. -/
def is_number : PyVal → Bool
  | .int _ => true
  | .float _ => true
  | .str _ => false

/-- The left operand of `add_revenue`'s guard,
`type(amount) != int or type(amount) != float`.  No value's type equals both
`int` and `float`, so this disjunction is true for every value. -/
def type_ne_int_or_ne_float (amount : PyVal) : Bool :=
  (match amount with | .int _ => false | _ => true)
  || (match amount with | .float _ => false | _ => true)

/-- `get_balance`: fold `balance += action['amount']` over the wallet. -/
def get_balance (self : Category) : ℚ :=
  self.wallet.foldl (fun balance action => balance + action.amount.toRat) 0

/-- `check_category_balance`: `False` when `abs(amount) > self.get_balance()`,
`True` otherwise. -/
def check_category_balance (self : Category) (amount : PyVal) : Bool :=
  if |amount.toRat| > get_balance self then false else true

/-- `add_revenue`.  The guard is
`(type(amount) != int or type(amount) != float) and amount < 0`; for a
non-numeric `amount` the comparison `amount < 0` itself raises a `TypeError`.
On acceptance the amount is appended unchanged. -/
def add_revenue (self : Category) (amount : PyVal) (description : String)
    (transfer : Bool) : Except PyErr Category :=
  match amount with
  | .str _ => .error .typeError
  | _ =>
    if type_ne_int_or_ne_float amount && decide (amount.toRat < 0) then
      .error (.exception ("Error: amount to deposit in " ++ self.category
        ++ " category balance has to be a positive number"))
    else
      .ok { self with wallet := self.wallet ++ [⟨amount, description, transfer⟩] }

/-- `add_expense`: raises for non-numeric amounts, returns `False` (state
unchanged) when `check_category_balance` fails, otherwise negates a positive
amount and appends it, returning `True`. -/
def add_expense (self : Category) (amount : PyVal) (description : String)
    (transfer : Bool) : Except PyErr (Bool × Category) :=
  if ¬ is_number amount then
    .error (.exception ("Error: amount to withdraw from " ++ self.category
      ++ " category balance has to be a negative number"))
  else if ¬ check_category_balance self amount then
    .ok (false, self)
  else
    let amount' := if decide (0 < amount.toRat) then amount.neg else amount
    .ok (true, { self with wallet := self.wallet ++ [⟨amount', description, transfer⟩] })

/-- The outcome of `transfer_money`: a returned Boolean or a raised exception. -/
inductive TxnOutcome where
  | ok (b : Bool)
  | exn (e : PyErr)
deriving DecidableEq, Repr

/-- The `target` argument of `transfer_money`: a `Category` instance or any
other Python object (which fails the `isinstance` check). -/
inductive PyTarget where
  | category (c : Category)
  | other
deriving DecidableEq, Repr

/-- Result of a `transfer_money` call: its outcome together with the final
states of the source object and the target object (Python mutates both in
place, so their states survive a raised exception). -/
structure TransferResult where
  outcome : TxnOutcome
  src : Category
  target : PyTarget
deriving DecidableEq, Repr

/-- `transfer_money`: checks `is_number`, then `isinstance(target, Category)`,
then debits the source via `add_expense` with `transfer=True`; on insufficient
funds returns `False` with neither side mutated; otherwise credits the target
via `add_revenue` with `transfer=True` and returns `True`.  If the credit step
raises (a negative amount), the exception propagates with the source already
debited. -/
def transfer_money (self : Category) (amount : PyVal) (target : PyTarget) :
    TransferResult :=
  if ¬ is_number amount then
    ⟨.exn (.exception ("Error: amount to send money from " ++ self.category
      ++ " category balance has to be a number")), self, target⟩
  else
    match target with
    | .other => ⟨.exn (.exception "Error: Category does not exist"), self, target⟩
    | .category tgt =>
      match add_expense self amount ("Send money to " ++ tgt.category) true with
      | .error e => ⟨.exn e, self, target⟩
      | .ok (false, self') => ⟨.ok false, self', .category tgt⟩
      | .ok (true, self') =>
        match add_revenue tgt amount ("Send money from " ++ self.category) true with
        | .error e => ⟨.exn e, self', .category tgt⟩
        | .ok tgt' => ⟨.ok true, self', .category tgt'⟩

/-- Round a rational to the nearest integer, ties to the even integer
(Python's rounding mode). -/
def round_half_even (q : ℚ) : ℤ :=
  let f := ⌊q⌋
  if q - (f : ℚ) < 1/2 then f
  else if (1 : ℚ)/2 < q - (f : ℚ) then f + 1
  else if f % 2 = 0 then f else f + 1

/-- Python's `round(x, 2)` modelled as exact decimal rounding over `ℚ`. -/
def round2 (q : ℚ) : ℚ := ((round_half_even (q * 100) : ℤ) : ℚ) / 100

/-- `get_expense_total`: sums the magnitudes of negative non-transfer entries
and rounds the total to 2 decimal places.  The source's final
`if type(total) == int` branch is dead code — `total` starts as the float
`0.00` and stays a float — so it is not modelled. -/
def get_expense_total (self : Category) : ℚ :=
  round2 (self.wallet.foldl
    (fun total action =>
      if action.transfer then total
      else if decide (action.amount.toRat < 0) then total + action.amount.toRat * (-1)
      else total) 0)

/-- Python's `str.lower()` (ASCII, which covers the repository's names):
lowercase every character. -/
def py_lower (s : String) : String := String.mk (s.data.map Char.toLower)

/-- Python's `str.title()`: a letter is uppercased when the preceding
character is not a letter, and lowercased otherwise. -/
def py_title (s : String) : String :=
  String.mk (s.data.foldl
    (fun (acc : List Char × Bool) c =>
      (acc.1 ++ [if acc.2 then c.toLower else c.toUpper], c.isAlpha))
    ([], false)).1

/-- The category registry `OperationWindow._categories`: a Python `dict` from
name to `Category`, modelled as an association list in insertion order. -/
abbrev Registry := List (String × Category)

/-- Python `dict` assignment `d[k] = v`: overwrite the value at an existing
key, otherwise append the new binding. -/
def dict_set (reg : Registry) (k : String) (v : Category) : Registry :=
  if (List.any reg fun kv => kv.1 = k) then
    List.map (fun kv => if kv.1 = k then (k, v) else kv) reg
  else reg ++ [(k, v)]

/-- `OperationWindow._add_category`: returns `False` when some existing key
matches the supplied name case-insensitively; otherwise stores a fresh
`Category` under the title-cased name and returns `True`. -/
def add_category (reg : Registry) (category_name : String) : Bool × Registry :=
  if List.any reg (fun kv => py_lower kv.1 = py_lower category_name) then
    (false, reg)
  else
    (true, dict_set reg (py_title category_name)
      (Category.mk (py_title category_name) []))

/-- One ledger operation on a single category, as named in the spec: a revenue,
an expense, or a `transfer_money` call in which this category is the source
(`transferOut`, with an arbitrary target object) or the target (`transferIn`,
with an arbitrary source category). -/
inductive Op where
  | revenue (amount : PyVal) (description : String) (transfer : Bool)
  | expense (amount : PyVal) (description : String) (transfer : Bool)
  | transferOut (amount : PyVal) (target : PyTarget)
  | transferIn (amount : PyVal) (source : Category)

/-- The state of the tracked category after one operation, whether the
operation returned normally, was rejected, or raised (a raised exception
leaves each Python object in whatever state the call left it in). -/
def applyOp (self : Category) : Op → Category
  | .revenue a d t =>
    match add_revenue self a d t with
    | .ok self' => self'
    | .error _ => self
  | .expense a d t =>
    match add_expense self a d t with
    | .ok (_, self') => self'
    | .error _ => self
  | .transferOut a target => (transfer_money self a target).src
  | .transferIn a source =>
    match (transfer_money source a (.category self)).target with
    | .category self' => self'
    | .other => self

/-- Run a sequence of ledger operations against one category. -/
def runOps (self : Category) (ops : List Op) : Category :=
  ops.foldl applyOp self

/-- A wallet mutation performed during a `transfer_money` call. -/
inductive Mutation where
  | sourceDebit
  | targetCredit
deriving DecidableEq, Repr

/-- The in-order log of wallet mutations a `transfer_money` call performs,
mirroring the control flow of `transfer_money`: nothing on a failed guard or
insufficient funds; the source debit alone when the target credit raises; the
source debit followed by the target credit on success. -/
def transfer_mutations (self : Category) (amount : PyVal) (target : PyTarget) :
    List Mutation :=
  if ¬ is_number amount then []
  else
    match target with
    | .other => []
    | .category tgt =>
      match add_expense self amount ("Send money to " ++ tgt.category) true with
      | .error _ => []
      | .ok (false, _) => []
      | .ok (true, _) =>
        match add_revenue tgt amount ("Send money from " ++ self.category) true with
        | .error _ => [.sourceDebit]
        | .ok _ => [.sourceDebit, .targetCredit]

/-! Helper lemmas characterising each operation. -/

/-- The left operand of `add_revenue`'s guard is true for every value. -/
lemma type_ne_int_or_ne_float_eq_true (a : PyVal) :
    type_ne_int_or_ne_float a = true := by
  cases a <;> rfl

/-- `amount *= -1` negates the numeric value. -/
lemma toRat_neg (a : PyVal) (h : is_number a = true) :
    (PyVal.neg a).toRat = -(a.toRat) := by
  cases a <;> simp_all [PyVal.neg, PyVal.toRat, is_number]

/-- The numeric value of the entry `add_expense` stores. -/
lemma stored_expense_toRat (a : PyVal) (h : is_number a = true) :
    (if 0 < a.toRat then a.neg else a).toRat = -|a.toRat| := by
  split
  · rw [toRat_neg a h, abs_of_pos (by assumption)]
  · rw [abs_of_nonpos (by linarith [not_lt.mp (by assumption)])]
    ring

/-- Appending one entry adds its amount to the balance. -/
lemma get_balance_append (c : Category) (tx : Tx) :
    get_balance { c with wallet := c.wallet ++ [tx] } =
      get_balance c + tx.amount.toRat := by
  simp [get_balance, List.foldl_append]

/-- A category built with an empty wallet has balance `0`. -/
lemma get_balance_empty (name : String) :
    get_balance ⟨name, []⟩ = 0 := rfl

/-- Closed form of `add_revenue` on a numeric amount. -/
lemma add_revenue_eq (c : Category) (a : PyVal) (d : String) (t : Bool)
    (h : is_number a = true) :
    add_revenue c a d t =
      if a.toRat < 0 then
        .error (.exception ("Error: amount to deposit in " ++ c.category
          ++ " category balance has to be a positive number"))
      else .ok { c with wallet := c.wallet ++ [⟨a, d, t⟩] } := by
  cases a <;> simp_all [add_revenue, is_number, type_ne_int_or_ne_float]

/-- Closed form of `add_expense` on a numeric amount. -/
lemma add_expense_eq (c : Category) (a : PyVal) (d : String) (t : Bool)
    (h : is_number a = true) :
    add_expense c a d t =
      if get_balance c < |a.toRat| then .ok (false, c)
      else .ok (true, { c with wallet :=
        c.wallet ++ [⟨if 0 < a.toRat then a.neg else a, d, t⟩] }) := by
  simp only [add_expense, check_category_balance, h, Bool.not_true, gt_iff_lt]
  split <;> simp_all

/-- `add_revenue` accepts exactly the non-negative numeric amounts and appends
them unchanged. -/
lemma add_revenue_ok (c c' : Category) (a : PyVal) (d : String) (t : Bool)
    (h : add_revenue c a d t = .ok c') :
    is_number a = true ∧ 0 ≤ a.toRat ∧
      c' = { c with wallet := c.wallet ++ [⟨a, d, t⟩] } := by
  have hn : is_number a = true := by
    cases a <;> first | rfl | exact absurd h (by simp [add_revenue])
  rw [add_revenue_eq c a d t hn] at h
  split at h
  · exact absurd h (by simp)
  · exact ⟨hn, le_of_not_lt (by assumption), by injection h with h; exact h.symm⟩

/-- A successful `add_revenue` keeps the balance non-negative. -/
lemma add_revenue_balance_nonneg (c c' : Category) (a : PyVal) (d : String)
    (t : Bool) (h : 0 ≤ get_balance c) (he : add_revenue c a d t = .ok c') :
    0 ≤ get_balance c' := by
  obtain ⟨-, hpos, hc⟩ := add_revenue_ok c c' a d t he
  rw [hc, get_balance_append]
  linarith

/-- Whatever Boolean `add_expense` returns, the balance stays non-negative. -/
lemma add_expense_balance_nonneg (c c' : Category) (a : PyVal) (d : String)
    (t : Bool) (b : Bool) (h : 0 ≤ get_balance c)
    (he : add_expense c a d t = .ok (b, c')) :
    0 ≤ get_balance c' := by
  have hn : is_number a = true := by
    cases a <;> first | rfl | exact absurd he (by simp [add_expense, is_number])
  rw [add_expense_eq c a d t hn] at he
  split at he
  · injection he with he
    injection he with _ he
    rw [← he]; exact h
  · injection he with he
    injection he with _ he
    rw [← he, get_balance_append, stored_expense_toRat a hn]
    have : ¬ get_balance c < |a.toRat| := by assumption
    linarith [not_lt.mp this]

/-- Closed form of `transfer_money` on a numeric amount and a genuine
`Category` target: rejected outright on insufficient funds; otherwise the
source is debited, and then the target credit either raises (negative amount,
leaving the target untouched) or succeeds. -/
lemma transfer_money_eq (self tgt : Category) (a : PyVal)
    (h : is_number a = true) :
    transfer_money self a (.category tgt) =
      if get_balance self < |a.toRat| then ⟨.ok false, self, .category tgt⟩
      else
        let self' : Category := { self with wallet := self.wallet ++
          [⟨if 0 < a.toRat then a.neg else a, "Send money to " ++ tgt.category, true⟩] }
        if a.toRat < 0 then
          ⟨.exn (.exception ("Error: amount to deposit in " ++ tgt.category
            ++ " category balance has to be a positive number")), self', .category tgt⟩
        else
          ⟨.ok true, self', .category { tgt with wallet := tgt.wallet ++
            [⟨a, "Send money from " ++ self.category, true⟩] }⟩ := by
  unfold transfer_money
  rw [if_neg (not_not_intro h)]
  dsimp only
  rw [add_expense_eq self a ("Send money to " ++ tgt.category) true h]
  by_cases hb : get_balance self < |a.toRat|
  · rw [if_pos hb, if_pos hb]
  · rw [if_neg hb, if_neg hb]
    dsimp only
    rw [add_revenue_eq tgt a ("Send money from " ++ self.category) true h]
    by_cases hneg : a.toRat < 0
    · rw [if_pos hneg, if_pos hneg]
    · rw [if_neg hneg, if_neg hneg]

/-- The same closed form for `transfer_mutations`. -/
lemma transfer_mutations_eq (self tgt : Category) (a : PyVal)
    (h : is_number a = true) :
    transfer_mutations self a (.category tgt) =
      if get_balance self < |a.toRat| then []
      else if a.toRat < 0 then [.sourceDebit]
      else [.sourceDebit, .targetCredit] := by
  unfold transfer_mutations
  rw [if_neg (not_not_intro h)]
  dsimp only
  rw [add_expense_eq self a ("Send money to " ++ tgt.category) true h]
  by_cases hb : get_balance self < |a.toRat|
  · rw [if_pos hb, if_pos hb]
  · rw [if_neg hb, if_neg hb]
    dsimp only
    rw [add_revenue_eq tgt a ("Send money from " ++ self.category) true h]
    by_cases hneg : a.toRat < 0
    · rw [if_pos hneg, if_pos hneg]
    · rw [if_neg hneg, if_neg hneg]

/-- The source side of any `transfer_money` call keeps a non-negative
balance. -/
lemma transfer_src_balance_nonneg (self : Category) (a : PyVal)
    (target : PyTarget) (h : 0 ≤ get_balance self) :
    0 ≤ get_balance (transfer_money self a target).src := by
  by_cases hn : is_number a = true
  · cases target with
    | other =>
      unfold transfer_money
      rw [if_neg (not_not_intro hn)]
      exact h
    | category tgt =>
      rw [transfer_money_eq self tgt a hn]
      by_cases hb : get_balance self < |a.toRat|
      · rw [if_pos hb]
        exact h
      · rw [if_neg hb]
        dsimp only
        have hd : 0 ≤ get_balance self - |a.toRat| := by linarith [not_lt.mp hb]
        by_cases hneg : a.toRat < 0
        · rw [if_pos hneg]
          dsimp only
          rw [get_balance_append, stored_expense_toRat a hn]
          linarith
        · rw [if_neg hneg]
          dsimp only
          rw [get_balance_append, stored_expense_toRat a hn]
          linarith
  · unfold transfer_money
    rw [if_pos hn]
    exact h

/-- The target side of any `transfer_money` call keeps a non-negative
balance. -/
lemma transfer_target_balance_nonneg (source self self' : Category) (a : PyVal)
    (h : 0 ≤ get_balance self)
    (ht : (transfer_money source a (.category self)).target = .category self') :
    0 ≤ get_balance self' := by
  by_cases hn : is_number a = true
  · rw [transfer_money_eq source self a hn] at ht
    by_cases hb : get_balance source < |a.toRat|
    · rw [if_pos hb] at ht
      injection ht with ht
      rw [← ht]; exact h
    · rw [if_neg hb] at ht
      dsimp only at ht
      by_cases hneg : a.toRat < 0
      · rw [if_pos hneg] at ht
        injection ht with ht
        rw [← ht]; exact h
      · rw [if_neg hneg] at ht
        injection ht with ht
        rw [← ht, get_balance_append]
        have := not_lt.mp hneg
        dsimp only
        linarith
  · unfold transfer_money at ht
    rw [if_pos hn] at ht
    injection ht with ht
    rw [← ht]; exact h

/-- Every single ledger operation preserves non-negativity of the balance. -/
lemma applyOp_balance_nonneg (c : Category) (op : Op)
    (h : 0 ≤ get_balance c) : 0 ≤ get_balance (applyOp c op) := by
  cases op
  case revenue a d t =>
    simp only [applyOp]
    split
    · exact add_revenue_balance_nonneg c _ a d t h (by assumption)
    · exact h
  case expense a d t =>
    simp only [applyOp]
    split
    · exact add_expense_balance_nonneg c _ a d t _ h (by assumption)
    · exact h
  case transferOut a target =>
    exact transfer_src_balance_nonneg c a target h
  case transferIn a source =>
    simp only [applyOp]
    split
    · exact transfer_target_balance_nonneg source c _ a h (by assumption)
    · exact h

/-- Every sequence of ledger operations preserves non-negativity. -/
lemma runOps_balance_nonneg (c : Category) (ops : List Op)
    (h : 0 ≤ get_balance c) : 0 ≤ get_balance (runOps c ops) := by
  induction ops generalizing c with
  | nil => exact h
  | cons op rest ih =>
    exact ih (applyOp c op) (applyOp_balance_nonneg c op h)

/-- Inversion for a `True` return from `add_expense`. -/
lemma add_expense_ok_true (c c' : Category) (a : PyVal) (d : String) (t : Bool)
    (h : add_expense c a d t = .ok (true, c')) :
    is_number a = true ∧ ¬ get_balance c < |a.toRat| ∧
      c' = { c with wallet :=
        c.wallet ++ [⟨if 0 < a.toRat then a.neg else a, d, t⟩] } := by
  have hn : is_number a = true := by
    cases a <;> first | rfl | exact absurd h (by simp [add_expense, is_number])
  rw [add_expense_eq c a d t hn] at h
  split at h
  · exact absurd h (by simp)
  · refine ⟨hn, by assumption, ?_⟩
    injection h with h
    injection h with _ h
    exact h.symm

/-- Inversion for a `False` return from `add_expense`. -/
lemma add_expense_ok_false (c c' : Category) (a : PyVal) (d : String) (t : Bool)
    (h : add_expense c a d t = .ok (false, c')) :
    is_number a = true ∧ get_balance c < |a.toRat| ∧ c' = c := by
  have hn : is_number a = true := by
    cases a <;> first | rfl | exact absurd h (by simp [add_expense, is_number])
  rw [add_expense_eq c a d t hn] at h
  split at h
  · refine ⟨hn, by assumption, ?_⟩
    injection h with h
    injection h with _ h
    exact h.symm
  · exact absurd h (by simp)

/-- Appending a transfer-flagged or non-negative entry does not change the
expense total. -/
lemma get_expense_total_append_skip (c : Category) (tx : Tx)
    (h : tx.transfer = true ∨ 0 ≤ tx.amount.toRat) :
    get_expense_total { c with wallet := c.wallet ++ [tx] } =
      get_expense_total c := by
  unfold get_expense_total
  rw [List.foldl_append]
  congr 1
  cases h with
  | inl h => simp [h]
  | inr h => simp [not_lt.mpr h]

/-- The binding written by `dict_set` is present in the result. -/
lemma dict_set_mem_self (reg : Registry) (k : String) (v : Category) :
    (k, v) ∈ dict_set reg k v := by
  unfold dict_set
  split
  · next hany =>
    obtain ⟨kv, hmem, hk⟩ := List.any_eq_true.mp hany
    refine List.mem_map.mpr ⟨kv, hmem, ?_⟩
    rw [if_pos (of_decide_eq_true hk)]
  · exact List.mem_append.mpr (Or.inr (List.mem_singleton.mpr rfl))

/-- Every binding in `dict_set reg k v` is an old binding or the new one. -/
lemma dict_set_mem (reg : Registry) (k : String) (v : Category)
    (kv : String × Category) (h : kv ∈ dict_set reg k v) :
    kv ∈ reg ∨ kv = (k, v) := by
  unfold dict_set at h
  split at h
  · obtain ⟨kv0, hmem, heq⟩ := List.mem_map.mp h
    by_cases hk : kv0.1 = k
    · right
      rw [← heq, if_pos hk]
    · left
      rw [← heq, if_neg hk]
      exact hmem
  · rcases List.mem_append.mp h with h | h
    · exact Or.inl h
    · exact Or.inr (List.mem_singleton.mp h)

/-- Evaluation helper: the absolute value of a non-negative amount. -/
lemma abs_toRat_of_nonneg (a : PyVal) (h : 0 ≤ a.toRat) : |a.toRat| = a.toRat :=
  abs_of_nonneg h

/-! The claims. -/

/-- C1: for every category starting empty and every sequence of ledger
operations (`add_revenue`, `add_expense`, `transfer_money` as source or
target), whether each operation succeeds or is rejected, `get_balance()` is
greater than or equal to zero after every operation (every state reached is
`runOps` of some prefix, so quantifying over all operation lists covers every
intermediate state). -/
theorem claim_C1_balance_nonneg (name : String) (ops : List Op) :
    0 ≤ get_balance (runOps ⟨name, []⟩ ops) :=
  runOps_balance_nonneg ⟨name, []⟩ ops (le_of_eq (get_balance_empty name).symm)

/-- C2: for every numeric amount, `add_expense` rejects (returns `False`) if
and only if `abs(amount)` is strictly greater than the current balance; on
rejection the transaction list is unchanged, and on acceptance exactly one
debit record with stored amount equal to `-abs(amount)` is appended. -/
theorem claim_C2_add_expense_policy (c : Category) (a : PyVal) (d : String)
    (t : Bool) (h : is_number a = true) :
    (add_expense c a d t = .ok (false, c) ↔ get_balance c < |a.toRat|) ∧
    (¬ get_balance c < |a.toRat| →
      ∃ tx : Tx,
        add_expense c a d t = .ok (true, { c with wallet := c.wallet ++ [tx] })
        ∧ tx.amount.toRat = -|a.toRat| ∧ tx.description = d
        ∧ tx.transfer = t) := by
  constructor
  · constructor
    · intro he
      by_contra hb
      rw [add_expense_eq c a d t h, if_neg hb] at he
      exact absurd he (by simp)
    · intro hb
      rw [add_expense_eq c a d t h, if_pos hb]
  · intro hb
    refine ⟨⟨if 0 < a.toRat then a.neg else a, d, t⟩, ?_,
      stored_expense_toRat a h, rfl, rfl⟩
    rw [add_expense_eq c a d t h, if_neg hb]

/-- Witness for C2 at the seed scenario `Auto.add_expense(15, "Tyre Change")`
on an empty category. -/
theorem claim_C2_witness :
    (add_expense ⟨"Auto", []⟩ (.int 15) "Tyre Change" false =
        .ok (false, ⟨"Auto", []⟩) ↔
      get_balance ⟨"Auto", []⟩ < |(PyVal.int 15).toRat|) ∧
    (¬ get_balance ⟨"Auto", []⟩ < |(PyVal.int 15).toRat| →
      ∃ tx : Tx,
        add_expense ⟨"Auto", []⟩ (.int 15) "Tyre Change" false =
          .ok (true, { Category.mk "Auto" [] with
            wallet := (Category.mk "Auto" []).wallet ++ [tx] })
        ∧ tx.amount.toRat = -|(PyVal.int 15).toRat|
        ∧ tx.description = "Tyre Change" ∧ tx.transfer = false) :=
  claim_C2_add_expense_policy ⟨"Auto", []⟩ (.int 15) "Tyre Change" false rfl

/-- C3: for every pair of categories and every numeric amount, if
`transfer_money` fails because the source has insufficient funds, then both
the source's and the target's transaction lists are exactly as they were
before the call; if it succeeds, the source debit happens strictly before the
only target mutation (the mutation log is `[sourceDebit, targetCredit]`, the
final source state is produced by `add_expense` from the original source
alone, and the final target state by `add_revenue` from the original target
alone). -/
theorem claim_C3_transfer_atomicity (self tgt : Category) (a : PyVal)
    (h : is_number a = true) :
    ((transfer_money self a (.category tgt)).outcome = .ok false →
      (transfer_money self a (.category tgt)).src = self ∧
      (transfer_money self a (.category tgt)).target = .category tgt) ∧
    ((transfer_money self a (.category tgt)).outcome = .ok true →
      transfer_mutations self a (.category tgt) = [.sourceDebit, .targetCredit] ∧
      ∃ self' tgt' : Category,
        add_expense self a ("Send money to " ++ tgt.category) true
          = .ok (true, self') ∧
        add_revenue tgt a ("Send money from " ++ self.category) true
          = .ok tgt' ∧
        transfer_money self a (.category tgt) = ⟨.ok true, self', .category tgt'⟩) := by
  rw [transfer_money_eq self tgt a h, transfer_mutations_eq self tgt a h]
  by_cases hb : get_balance self < |a.toRat|
  · rw [if_pos hb, if_pos hb]
    exact ⟨fun _ => ⟨rfl, rfl⟩, fun hc => absurd hc (by simp)⟩
  · rw [if_neg hb, if_neg hb]
    dsimp only
    by_cases hneg : a.toRat < 0
    · rw [if_pos hneg, if_pos hneg]
      exact ⟨fun hc => absurd hc (by simp), fun hc => absurd hc (by simp)⟩
    · rw [if_neg hneg, if_neg hneg]
      refine ⟨fun hc => absurd hc (by simp), fun _ => ⟨rfl, _, _, ?_, ?_, rfl⟩⟩
      · rw [add_expense_eq self a ("Send money to " ++ tgt.category) true h,
          if_neg hb]
      · rw [add_revenue_eq tgt a ("Send money from " ++ self.category) true h,
          if_neg hneg]

/-- Witness for C3: a transfer of 10 from a category holding 100 into an
empty category. -/
theorem claim_C3_witness :
    ((transfer_money ⟨"A", [⟨.int 100, "seed", false⟩]⟩ (.int 10)
        (.category ⟨"B", []⟩)).outcome = .ok false →
      (transfer_money ⟨"A", [⟨.int 100, "seed", false⟩]⟩ (.int 10)
        (.category ⟨"B", []⟩)).src = ⟨"A", [⟨.int 100, "seed", false⟩]⟩ ∧
      (transfer_money ⟨"A", [⟨.int 100, "seed", false⟩]⟩ (.int 10)
        (.category ⟨"B", []⟩)).target = .category ⟨"B", []⟩) ∧
    ((transfer_money ⟨"A", [⟨.int 100, "seed", false⟩]⟩ (.int 10)
        (.category ⟨"B", []⟩)).outcome = .ok true →
      transfer_mutations ⟨"A", [⟨.int 100, "seed", false⟩]⟩ (.int 10)
        (.category ⟨"B", []⟩) = [.sourceDebit, .targetCredit] ∧
      ∃ self' tgt' : Category,
        add_expense ⟨"A", [⟨.int 100, "seed", false⟩]⟩ (.int 10)
          ("Send money to " ++ (Category.mk "B" []).category) true
          = .ok (true, self') ∧
        add_revenue ⟨"B", []⟩ (.int 10)
          ("Send money from " ++ (Category.mk "A"
            [⟨.int 100, "seed", false⟩]).category) true
          = .ok tgt' ∧
        transfer_money ⟨"A", [⟨.int 100, "seed", false⟩]⟩ (.int 10)
          (.category ⟨"B", []⟩) = ⟨.ok true, self', .category tgt'⟩) :=
  claim_C3_transfer_atomicity ⟨"A", [⟨.int 100, "seed", false⟩]⟩ ⟨"B", []⟩
    (.int 10) rfl

/-- C4 counterexample: `add_revenue` does reject the negative numeric amount
`-1` (the guard's left conjunct is true for every value, so the condition
reduces to `amount < 0` and the call raises). -/
theorem claim_C4_counterexample :
    add_revenue ⟨"Income", []⟩ (.int (-1)) "Rebate" false =
      .error (.exception
        "Error: amount to deposit in Income category balance has to be a positive number") := rfl

/-- C4 amended: for every negative numeric amount, `add_revenue` rejects it by
raising an exception (no record is appended): the type-test disjunction in its
guard is true for every value, so the guard reduces to `amount < 0`. -/
theorem claim_C4_amended (c : Category) (a : PyVal) (d : String) (t : Bool)
    (h : is_number a = true) (hneg : a.toRat < 0) :
    add_revenue c a d t = .error (.exception ("Error: amount to deposit in "
      ++ c.category ++ " category balance has to be a positive number")) := by
  rw [add_revenue_eq c a d t h, if_pos hneg]

/-- Witness for the amended C4 at the concrete input `-5`. -/
theorem claim_C4_witness :
    add_revenue ⟨"Food", []⟩ (.int (-5)) "Discount" true =
      .error (.exception
        "Error: amount to deposit in Food category balance has to be a positive number") :=
  claim_C4_amended ⟨"Food", []⟩ (.int (-5)) "Discount" true rfl
    (by norm_num [PyVal.toRat])

/-- The `Grocery` category right after the seed transfer of 50 from `Food`. -/
def grocery_seed : Category :=
  ⟨"Grocery", [⟨.int 50, "Send money from Food", true⟩]⟩

/-- `Grocery` after the further seed expenses 30.72 and 10.15. -/
def grocery_after : Category :=
  ⟨"Grocery", [⟨.int 50, "Send money from Food", true⟩,
    ⟨.float (-(3072/100)), "Chili's", false⟩,
    ⟨.float (-(1015/100)), "Walmart", false⟩]⟩

/-- C5 counterexample: in the scenario (a 50.00 transfer credit followed by
accepted expenses of 30.72 and 10.15) the balance is 9.13, not the claimed
9.28. -/
theorem claim_C5_counterexample :
    add_expense grocery_seed (.float (3072/100)) "Chili's" false =
      .ok (true, ⟨"Grocery", [⟨.int 50, "Send money from Food", true⟩,
        ⟨.float (-(3072/100)), "Chili's", false⟩]⟩) ∧
    add_expense ⟨"Grocery", [⟨.int 50, "Send money from Food", true⟩,
        ⟨.float (-(3072/100)), "Chili's", false⟩]⟩
      (.float (1015/100)) "Walmart" false = .ok (true, grocery_after) ∧
    get_expense_total grocery_after = 4087/100 ∧
    get_balance grocery_after = 913/100 ∧
    ¬ get_balance grocery_after = 928/100 := by
  refine ⟨?_, ?_, ?_, ?_, ?_⟩
  · rw [add_expense_eq grocery_seed (.float (3072/100)) "Chili's" false rfl,
      if_neg (by
        rw [abs_toRat_of_nonneg _ (by norm_num [PyVal.toRat])]
        norm_num [grocery_seed, get_balance, PyVal.toRat]),
      if_pos (by norm_num [PyVal.toRat])]
    rfl
  · rw [add_expense_eq ⟨"Grocery", [⟨.int 50, "Send money from Food", true⟩,
        ⟨.float (-(3072/100)), "Chili's", false⟩]⟩
        (.float (1015/100)) "Walmart" false rfl,
      if_neg (by
        rw [abs_toRat_of_nonneg _ (by norm_num [PyVal.toRat])]
        norm_num [get_balance, PyVal.toRat]),
      if_pos (by norm_num [PyVal.toRat])]
    rfl
  · norm_num [grocery_after, get_expense_total, PyVal.toRat, round2,
      round_half_even]
  · norm_num [grocery_after, get_balance, PyVal.toRat]
  · norm_num [grocery_after, get_balance, PyVal.toRat]

/-- C5 amended: in that scenario `get_expense_total()` returns 40.87 as
claimed, but `get_balance()` returns 9.13 (= 50 − 30.72 − 10.15). -/
theorem claim_C5_amended :
    add_expense grocery_seed (.float (3072/100)) "Chili's" false =
      .ok (true, ⟨"Grocery", [⟨.int 50, "Send money from Food", true⟩,
        ⟨.float (-(3072/100)), "Chili's", false⟩]⟩) ∧
    add_expense ⟨"Grocery", [⟨.int 50, "Send money from Food", true⟩,
        ⟨.float (-(3072/100)), "Chili's", false⟩]⟩
      (.float (1015/100)) "Walmart" false = .ok (true, grocery_after) ∧
    get_expense_total grocery_after = 4087/100 ∧
    get_balance grocery_after = 913/100 := by
  refine ⟨?_, ?_, ?_, ?_⟩
  · rw [add_expense_eq grocery_seed (.float (3072/100)) "Chili's" false rfl,
      if_neg (by
        rw [abs_toRat_of_nonneg _ (by norm_num [PyVal.toRat])]
        norm_num [grocery_seed, get_balance, PyVal.toRat]),
      if_pos (by norm_num [PyVal.toRat])]
    rfl
  · rw [add_expense_eq ⟨"Grocery", [⟨.int 50, "Send money from Food", true⟩,
        ⟨.float (-(3072/100)), "Chili's", false⟩]⟩
        (.float (1015/100)) "Walmart" false rfl,
      if_neg (by
        rw [abs_toRat_of_nonneg _ (by norm_num [PyVal.toRat])]
        norm_num [get_balance, PyVal.toRat]),
      if_pos (by norm_num [PyVal.toRat])]
    rfl
  · norm_num [grocery_after, get_expense_total, PyVal.toRat, round2,
      round_half_even]
  · norm_num [grocery_after, get_balance, PyVal.toRat]

/-- C6 counterexample: `add_revenue` stores `1.005` unchanged, and the stored
amount differs from `round(1.005, 2) = 1.0`. -/
theorem claim_C6_counterexample :
    add_revenue ⟨"Income", []⟩ (.float (201/200)) "Interest" false =
      .ok ⟨"Income", [⟨.float (201/200), "Interest", false⟩]⟩ ∧
    round2 (201/200) = 1 ∧
    ¬ (PyVal.float (201/200)).toRat = round2 (201/200) := by
  refine ⟨?_, ?_, ?_⟩
  · rw [add_revenue_eq ⟨"Income", []⟩ (.float (201/200)) "Interest" false rfl,
      if_neg (by norm_num [PyVal.toRat])]
    rfl
  · norm_num [round2, round_half_even]
  · norm_num [PyVal.toRat, round2, round_half_even]

/-- C6 amended: for every accepted amount, `add_revenue` stores the amount
exactly as supplied — no rounding to 2 decimal places happens before
storage. -/
theorem claim_C6_amended (c c' : Category) (a : PyVal) (d : String) (t : Bool)
    (h : add_revenue c a d t = .ok c') :
    c'.wallet = c.wallet ++ [⟨a, d, t⟩] := by
  obtain ⟨-, -, hc⟩ := add_revenue_ok c c' a d t h
  rw [hc]

/-- Witness for the amended C6 at the concrete amount `7`. -/
theorem claim_C6_witness :
    (Category.mk "Income" [⟨.int 7, "Tip", false⟩]).wallet =
      (Category.mk "Income" []).wallet ++ [⟨.int 7, "Tip", false⟩] :=
  claim_C6_amended ⟨"Income", []⟩ ⟨"Income", [⟨.int 7, "Tip", false⟩]⟩
    (.int 7) "Tip" false rfl

/-- C7 counterexample: creating `"fOOd"` in an empty registry succeeds, but
the inserted key is the title-cased `"Food"`, not the originally supplied
casing `"fOOd"`. -/
theorem claim_C7_counterexample :
    add_category [] "fOOd" = (true, [("Food", ⟨"Food", []⟩)]) ∧
    "Food" ≠ "fOOd" := by
  exact ⟨by decide, by decide⟩

/-- C7 amended: creation fails if and only if some existing registry key
equals the supplied name case-insensitively, and on success a new empty
`Category` is inserted keyed by the title-cased name (`name.title()`), not by
the originally supplied casing. -/
theorem claim_C7_amended (reg : Registry) (category_name : String) :
    ((add_category reg category_name).1 = false ↔
      ∃ kv ∈ reg, py_lower kv.1 = py_lower category_name) ∧
    ((add_category reg category_name).1 = true →
      (py_title category_name, Category.mk (py_title category_name) [])
        ∈ (add_category reg category_name).2 ∧
      ∀ kv ∈ (add_category reg category_name).2,
        kv ∈ reg ∨ kv = (py_title category_name,
          Category.mk (py_title category_name) [])) := by
  unfold add_category
  by_cases hdup :
      List.any reg (fun kv => decide (py_lower kv.1 = py_lower category_name)) = true
  · rw [if_pos hdup]
    constructor
    · constructor
      · intro _
        obtain ⟨kv, hmem, hp⟩ := List.any_eq_true.mp hdup
        exact ⟨kv, hmem, of_decide_eq_true hp⟩
      · intro _; rfl
    · intro hc
      exact absurd hc (by simp)
  · rw [if_neg hdup]
    constructor
    · constructor
      · intro hc
        exact absurd hc (by simp)
      · rintro ⟨kv, hmem, hp⟩
        exact absurd (List.any_eq_true.mpr ⟨kv, hmem, decide_eq_true hp⟩) hdup
    · intro _
      exact ⟨dict_set_mem_self reg _ _, fun kv hkv => dict_set_mem reg _ _ kv hkv⟩

/-- Witness for the amended C7 on the empty registry and the name `"fOOd"`. -/
theorem claim_C7_witness :
    ((add_category [] "fOOd").1 = false ↔
      ∃ kv ∈ ([] : Registry), py_lower kv.1 = py_lower "fOOd") ∧
    ("Food", Category.mk "Food" []) ∈ (add_category [] "fOOd").2 :=
  ⟨(claim_C7_amended [] "fOOd").1,
   ((claim_C7_amended [] "fOOd").2 (by decide)).1⟩

/-- C8 counterexample: `add_revenue` raises an exception (does not return a
result value) on the negative numeric amount `-1`. -/
theorem claim_C8_counterexample :
    add_revenue ⟨"Income", []⟩ (.int (-1)) "Refund" false =
      .error (.exception
        "Error: amount to deposit in Income category balance has to be a positive number") := rfl

/-- C8 amended: the core operations return result values only on valid input
and raise exceptions that escape to the caller otherwise — `add_revenue`
raises a `TypeError` for non-numeric amounts and an `Exception` for negative
numeric amounts; `add_expense` and `transfer_money` raise for non-numeric
amounts; `transfer_money` raises for non-`Category` targets.  For numeric
amounts, `add_revenue` returns normally iff the amount is non-negative,
`add_expense` always returns a Boolean, and `transfer_money` on a `Category`
target returns a Boolean whenever the amount is non-negative. -/
theorem claim_C8_amended :
    (∀ (c : Category) (a : PyVal) (d : String) (t : Bool),
      is_number a = false → add_revenue c a d t = .error .typeError) ∧
    (∀ (c : Category) (a : PyVal) (d : String) (t : Bool),
      is_number a = false →
      add_expense c a d t = .error (.exception ("Error: amount to withdraw from "
        ++ c.category ++ " category balance has to be a negative number"))) ∧
    (∀ (c : Category) (a : PyVal) (target : PyTarget),
      is_number a = false →
      (transfer_money c a target).outcome =
        .exn (.exception ("Error: amount to send money from "
          ++ c.category ++ " category balance has to be a number"))) ∧
    (∀ (c : Category) (a : PyVal), is_number a = true →
      (transfer_money c a .other).outcome =
        .exn (.exception "Error: Category does not exist")) ∧
    (∀ (c : Category) (a : PyVal) (d : String) (t : Bool),
      is_number a = true → a.toRat < 0 →
      ∃ e, add_revenue c a d t = .error e) ∧
    (∀ (c : Category) (a : PyVal) (d : String) (t : Bool),
      is_number a = true → 0 ≤ a.toRat →
      ∃ c', add_revenue c a d t = .ok c') ∧
    (∀ (c : Category) (a : PyVal) (d : String) (t : Bool),
      is_number a = true → ∃ b c', add_expense c a d t = .ok (b, c')) ∧
    (∀ (self tgt : Category) (a : PyVal),
      is_number a = true → 0 ≤ a.toRat →
      ∃ b, (transfer_money self a (.category tgt)).outcome = .ok b) := by
  refine ⟨?_, ?_, ?_, ?_, ?_, ?_, ?_, ?_⟩
  · intro c a d t h
    cases a <;> first | rfl | exact absurd h (by simp [is_number])
  · intro c a d t h
    cases a <;> first | rfl | exact absurd h (by simp [is_number])
  · intro c a target h
    cases a <;> first | rfl | exact absurd h (by simp [is_number])
  · intro c a h
    unfold transfer_money
    rw [if_neg (not_not_intro h)]
  · intro c a d t h hneg
    rw [add_revenue_eq c a d t h, if_pos hneg]
    exact ⟨_, rfl⟩
  · intro c a d t h h0
    rw [add_revenue_eq c a d t h, if_neg (not_lt.mpr h0)]
    exact ⟨_, rfl⟩
  · intro c a d t h
    rw [add_expense_eq c a d t h]
    by_cases hb : get_balance c < |a.toRat|
    · rw [if_pos hb]
      exact ⟨false, c, rfl⟩
    · rw [if_neg hb]
      exact ⟨true, _, rfl⟩
  · intro self tgt a h h0
    rw [transfer_money_eq self tgt a h]
    by_cases hb : get_balance self < |a.toRat|
    · refine ⟨false, ?_⟩
      rw [if_pos hb]
    · refine ⟨true, ?_⟩
      rw [if_neg hb]
      dsimp only
      rw [if_neg (not_lt.mpr h0)]

/-- Witness for the amended C8: a non-numeric amount raises a `TypeError`, a
non-`Category` target raises, and a valid revenue returns normally. -/
theorem claim_C8_witness :
    add_revenue ⟨"Food", []⟩ (.str "ten") "Gift" false = .error .typeError ∧
    (transfer_money ⟨"Food", []⟩ (.int 5) .other).outcome =
      .exn (.exception "Error: Category does not exist") ∧
    (∃ c', add_revenue ⟨"Food", []⟩ (.int 5) "Gift" false = .ok c') :=
  ⟨claim_C8_amended.1 ⟨"Food", []⟩ (.str "ten") "Gift" false rfl,
   claim_C8_amended.2.2.2.1 ⟨"Food", []⟩ (.int 5) rfl,
   claim_C8_amended.2.2.2.2.2.1 ⟨"Food", []⟩ (.int 5) "Gift" false rfl
     (by norm_num [PyVal.toRat])⟩

/-- C9: for every source category with balance 4512.00 and every empty target
category, `transfer_money(1000, target)` succeeds, leaving the source balance
at 3512.00 and the target balance at 1000.00, with exactly one
transfer-flagged transaction appended to each side. -/
theorem claim_C9_transfer_scenario (src tgt : Category)
    (h1 : get_balance src = 4512) (h2 : tgt.wallet = []) :
    ∃ tx1 tx2 : Tx,
      transfer_money src (.int 1000) (.category tgt) =
        ⟨.ok true, { src with wallet := src.wallet ++ [tx1] },
          .category { tgt with wallet := tgt.wallet ++ [tx2] }⟩ ∧
      tx1.transfer = true ∧ tx2.transfer = true ∧
      get_balance { src with wallet := src.wallet ++ [tx1] } = 3512 ∧
      get_balance { tgt with wallet := tgt.wallet ++ [tx2] } = 1000 := by
  have h : is_number (.int 1000) = true := rfl
  have hb : ¬ get_balance src < |(PyVal.int 1000).toRat| := by
    rw [h1, abs_toRat_of_nonneg _ (by norm_num [PyVal.toRat])]
    norm_num [PyVal.toRat]
  have hneg : ¬ (PyVal.int 1000).toRat < 0 := by norm_num [PyVal.toRat]
  refine ⟨⟨if 0 < (PyVal.int 1000).toRat then (PyVal.int 1000).neg
      else (.int 1000), "Send money to " ++ tgt.category, true⟩,
    ⟨.int 1000, "Send money from " ++ src.category, true⟩, ?_, rfl, rfl, ?_, ?_⟩
  · rw [transfer_money_eq src tgt _ h, if_neg hb]
    dsimp only
    rw [if_neg hneg]
  · rw [get_balance_append, stored_expense_toRat _ h, h1,
      abs_toRat_of_nonneg _ (by norm_num [PyVal.toRat])]
    norm_num [PyVal.toRat]
  · have hz : get_balance tgt = 0 := by rw [get_balance, h2]; rfl
    rw [get_balance_append, hz]
    norm_num [PyVal.toRat]

/-- The `Income` category from the seed data right before its first transfer:
5000 salary followed by 488 rent, balance 4512. -/
def income_seed : Category :=
  ⟨"Income", [⟨.int 5000, "Salary from FIT", false⟩, ⟨.int (-488), "Rent", false⟩]⟩

/-- Witness for C9 at the seed data's `Income` and an empty `Food`. -/
theorem claim_C9_witness :
    ∃ tx1 tx2 : Tx,
      transfer_money income_seed (.int 1000) (.category ⟨"Food", []⟩) =
        ⟨.ok true, { income_seed with wallet := income_seed.wallet ++ [tx1] },
          .category { Category.mk "Food" [] with
            wallet := (Category.mk "Food" []).wallet ++ [tx2] }⟩ ∧
      tx1.transfer = true ∧ tx2.transfer = true ∧
      get_balance { income_seed with
        wallet := income_seed.wallet ++ [tx1] } = 3512 ∧
      get_balance { Category.mk "Food" [] with
        wallet := (Category.mk "Food" []).wallet ++ [tx2] } = 1000 :=
  claim_C9_transfer_scenario income_seed ⟨"Food", []⟩
    (by norm_num [income_seed, get_balance, PyVal.toRat]) rfl

/-- C10: `get_expense_total()` is left unchanged by every successful
`add_revenue` call and by every `transfer_money` call on either the source or
the target side; rejected `add_expense` calls, transfer-flagged `add_expense`
calls, and zero-amount `add_expense` calls also leave it unchanged — so only
an `add_expense` call that appends a non-transfer record with strictly
negative stored amount can change it. -/
theorem claim_C10_expense_total_frame :
    (∀ (c c' : Category) (a : PyVal) (d : String) (t : Bool),
      add_revenue c a d t = .ok c' →
      get_expense_total c' = get_expense_total c) ∧
    (∀ (self : Category) (a : PyVal) (target : PyTarget),
      get_expense_total (transfer_money self a target).src =
        get_expense_total self) ∧
    (∀ (source self self' : Category) (a : PyVal),
      (transfer_money source a (.category self)).target = .category self' →
      get_expense_total self' = get_expense_total self) ∧
    (∀ (c c' : Category) (a : PyVal) (d : String) (t : Bool),
      add_expense c a d t = .ok (false, c') →
      get_expense_total c' = get_expense_total c) ∧
    (∀ (c c' : Category) (a : PyVal) (d : String),
      add_expense c a d true = .ok (true, c') →
      get_expense_total c' = get_expense_total c) ∧
    (∀ (c c' : Category) (a : PyVal) (d : String) (t : Bool), a.toRat = 0 →
      add_expense c a d t = .ok (true, c') →
      get_expense_total c' = get_expense_total c) := by
  refine ⟨?_, ?_, ?_, ?_, ?_, ?_⟩
  · intro c c' a d t h
    obtain ⟨-, hpos, hc⟩ := add_revenue_ok c c' a d t h
    rw [hc]
    exact get_expense_total_append_skip c _ (Or.inr hpos)
  · intro self a target
    by_cases hn : is_number a = true
    · cases target with
      | other =>
        unfold transfer_money
        rw [if_neg (not_not_intro hn)]
      | category tgt =>
        rw [transfer_money_eq self tgt a hn]
        by_cases hb : get_balance self < |a.toRat|
        · rw [if_pos hb]
        · rw [if_neg hb]
          dsimp only
          by_cases hneg : a.toRat < 0
          · rw [if_pos hneg]
            exact get_expense_total_append_skip self _ (Or.inl rfl)
          · rw [if_neg hneg]
            exact get_expense_total_append_skip self _ (Or.inl rfl)
    · unfold transfer_money
      rw [if_pos hn]
  · intro source self self' a ht
    by_cases hn : is_number a = true
    · rw [transfer_money_eq source self a hn] at ht
      by_cases hb : get_balance source < |a.toRat|
      · rw [if_pos hb] at ht
        injection ht with ht
        rw [← ht]
      · rw [if_neg hb] at ht
        dsimp only at ht
        by_cases hneg : a.toRat < 0
        · rw [if_pos hneg] at ht
          injection ht with ht
          rw [← ht]
        · rw [if_neg hneg] at ht
          injection ht with ht
          rw [← ht]
          exact get_expense_total_append_skip self _ (Or.inl rfl)
    · unfold transfer_money at ht
      rw [if_pos hn] at ht
      injection ht with ht
      rw [← ht]
  · intro c c' a d t h
    obtain ⟨-, -, hc⟩ := add_expense_ok_false c c' a d t h
    rw [hc]
  · intro c c' a d h
    obtain ⟨-, -, hc⟩ := add_expense_ok_true c c' a d true h
    rw [hc]
    exact get_expense_total_append_skip c _ (Or.inl rfl)
  · intro c c' a d t h0 h
    obtain ⟨hn, -, hc⟩ := add_expense_ok_true c c' a d t h
    rw [hc]
    refine get_expense_total_append_skip c _ (Or.inr ?_)
    rw [stored_expense_toRat a hn, h0]
    norm_num

/-- Witness for C10: a concrete revenue and a concrete transfer both leave
the expense total unchanged. -/
theorem claim_C10_witness :
    get_expense_total ⟨"Auto", [⟨.int 1000, "Sold my bike", false⟩]⟩ =
      get_expense_total ⟨"Auto", []⟩ ∧
    get_expense_total (transfer_money ⟨"A", [⟨.int 100, "s", false⟩]⟩
      (.int 10) (.category ⟨"B", []⟩)).src =
      get_expense_total ⟨"A", [⟨.int 100, "s", false⟩]⟩ :=
  ⟨claim_C10_expense_total_frame.1 ⟨"Auto", []⟩
      ⟨"Auto", [⟨.int 1000, "Sold my bike", false⟩]⟩ (.int 1000)
      "Sold my bike" false rfl,
   claim_C10_expense_total_frame.2.1 ⟨"A", [⟨.int 100, "s", false⟩]⟩
      (.int 10) (.category ⟨"B", []⟩)⟩

end BudgetManager
